import Mathlib

/-!
Verification development for the tanzu-source-controller repository.

This file gives a shallow embedding of the Maven version resolver
(`controllers/internal.go`, `pkg/mavenmetadata/mavenmetadata.go`), the Maven
artifact reconciler stages (`MavenArtifactVersionSyncReconciler`,
`MavenArtifactDownloadSyncReconciler`), and the image-repository helpers
(`preserveArtifactLastUpdateTime`, the skip-on-unchanged check of
`ImageRepositoryPullImageSyncReconciler`), together with theorems about them.

Conventions of the embedding:
* Go strings become `String`; Go slices become `List`.
* Fallible Go functions become `Except`-valued Lean functions; a Go runtime
  panic is represented by an explicit outcome constructor.
* HTTP fetches and filesystem reads are passed in as explicit oracle
  functions/values; cryptographic hashing (`sha1Checksum`), MIME sniffing
  (`isArchive`), zip extraction (`extractArchive`) and tar packaging
  (`createTarGz`) are passed in as abstract functions on abstract file bytes.
* `path.Join` on already-clean, non-empty path segments is string
  concatenation with "/", which is how it is modelled here.
-/

/-- Model of Go `strings.HasPrefix(s, pre)` (identical to Lean's
`String.startsWith`, but defined on the character lists by structural
recursion so that concrete instances evaluate in the kernel). -/
def goStarts (s pre : String) : Bool :=
  pre.data.isPrefixOf s.data

/-- Model of Go `strings.HasSuffix(s, suf)` (identical to Lean's
`String.endsWith`, but kernel-evaluable). -/
def goEnds (s suf : String) : Bool :=
  suf.data.isSuffixOf s.data

/-- Splits a character list at non-overlapping, leftmost-first occurrences
of the non-empty separator `sep`.  Structural recursion on `fuel`; each step
consumes at least one character, so `fuel := cs.length` never runs out (the
fuel-exhausted branch returns the remaining characters as the final
segment). -/
def goSplitCharsAux (sep : List Char) : Nat → List Char → List (List Char)
  | _, [] => [[]]
  | 0, cs => [cs]
  | fuel + 1, c :: cs =>
    if sep.isPrefixOf (c :: cs) then
      [] :: goSplitCharsAux sep fuel ((c :: cs).drop sep.length)
    else
      match goSplitCharsAux sep fuel cs with
      | [] => [[c]]
      | g :: gs => (c :: g) :: gs

/-- Model of Go `strings.Split(s, sep)` for a non-empty separator: the
segments of `s` between non-overlapping occurrences of `sep`.  The result is
never empty, and has a single element exactly when `sep` does not occur in
`s` (same semantics as Lean's `String.splitOn`). -/
def goSplit (s sep : String) : List String :=
  (goSplitCharsAux sep.data s.data.length s.data).map String.mk

/-- `String.intercalate`, by structural recursion. -/
def joinWith (sep : String) : List String → String
  | [] => ""
  | [x] => x
  | x :: rest => x ++ sep ++ joinWith sep rest

/-- Model of Go `strings.Replace(s, old, new, 1)` (replace the first
occurrence only) for a non-empty `old`: the first split segment, then `new`,
then the rest of the original string (re-joining the remaining segments with
`old` restores it). -/
def goReplaceFirst (s old new : String) : String :=
  match goSplit s old with
  | [] => s
  | [x] => x
  | x :: rest => x ++ new ++ joinWith old rest

/-- Model of Go `fmt` verb `%q` on the strings appearing in this development
(none of which contain characters that `%q` escapes): wrap in double quotes. -/
def goQuote (s : String) : String :=
  "\"" ++ s ++ "\""

/-- `MavenArtifactType` from `apis/source/v1alpha1/mavenartifact_types.go`:
the artifact coordinates of a MavenArtifact spec. -/
structure MavenArtifactType where
  groupId : String
  version : String
  artifactId : String
  type : String
  classifier : String
deriving DecidableEq, Repr

/-- `SnapshotVersion` from `pkg/mavenmetadata/mavenmetadata.go`. -/
structure SnapshotVersion where
  extension : String
  value : String
  updated : String
deriving DecidableEq, Repr

/-- `SnapshotElement` from `pkg/mavenmetadata/mavenmetadata.go`. -/
structure SnapshotElement where
  timestamp : String
  buildNumber : String
deriving DecidableEq, Repr

/-- `Versioning` from `pkg/mavenmetadata/mavenmetadata.go`.  The Go wrapper
structs `Versions`/`SnapshotVersions` (each holding a single slice field) are
flattened into the lists they wrap. -/
structure Versioning where
  latest : String
  release : String
  versions : List String
  lastUpdated : String
  snapshotVersions : List SnapshotVersion
  snapshot : SnapshotElement
deriving DecidableEq, Repr

/-- `MavenMetadata` from `pkg/mavenmetadata/mavenmetadata.go`. -/
structure MavenMetadata where
  groupID : String
  artifactID : String
  version : String
  versioning : Versioning
deriving DecidableEq, Repr

/-- `MavenMetadata.ReleaseVersion`: the `versioning.release` field, or an
error message when it is empty. -/
def MavenMetadata.ReleaseVersion (m : MavenMetadata) : Except String String :=
  if m.versioning.release = "" then
    .error "artifact metadata does not have a RELEASE version"
  else
    .ok m.versioning.release

/-- `MavenMetadata.LatestVersion`: the `versioning.latest` field, or an
error message when it is empty. -/
def MavenMetadata.LatestVersion (m : MavenMetadata) : Except String String :=
  if m.versioning.latest = "" then
    .error "artifact metadata does not have a LATEST version"
  else
    .ok m.versioning.latest

/-- `MavenMetadata.SnapshotResolvedVersion` from
`pkg/mavenmetadata/mavenmetadata.go`.

The Go loop is
`for _, v := range m.Versioning.SnapshotVersions.SnapshotVersion { ... sv = &v ... }`
and the repository predates Go 1.22, so `v` is a single variable shared by
every iteration.  Therefore `sv`, when it was assigned inside the loop at a
matching element, still points at that shared variable after the loop, and
the shared variable then holds the LAST element of the slice.  The function
consequently returns the last element's `value` whenever any element
matches, and `m.version` otherwise; `tempvalue` does not depend on the loop
variable, so it is hoisted here. -/
def MavenMetadata.SnapshotResolvedVersion (m : MavenMetadata) (filetype : String) : String :=
  let tempvalue :=
    goReplaceFirst m.version "-SNAPSHOT" "" ++ "-" ++
      m.versioning.snapshot.timestamp ++ "-" ++ m.versioning.snapshot.buildNumber
  if m.versioning.snapshotVersions.any
      (fun v => v.extension == filetype && v.value == tempvalue) then
    match m.versioning.snapshotVersions.getLast? with
    | some last => last.value
    | none => m.version
  else
    m.version

/-- `MavenResolver` from `controllers/internal.go`.  The `MetaXML` field only
feeds a log line and is omitted. -/
structure MavenResolver where
  artifact : MavenArtifactType
  repositoryURL : String
  requestPath : String
  resolvedVersion : String := ""
  resolvedFilename : String := ""
  downloadURL : String := ""
deriving DecidableEq, Repr

/-- Errors surfaced by the resolver and the download helpers, mirroring how
the Go code discriminates them:
* `deadline` — an error satisfying `errors.Is(err, context.DeadlineExceeded)`;
* `dl` — a `*downloadError` carrying the HTTP status code (produced by
  `download`/`downloadArtifact` for every non-2xx response) and the wrapped
  error text `dlerr.err`;
* `plain` — every other (plain `fmt.Errorf`) error, carrying `err.Error()`. -/
inductive GoErr where
  | deadline
  | dl (status : Nat) (msg : String)
  | plain (msg : String)
deriving DecidableEq, Repr

/-- The artifact file name computed (identically, by an inlined
`fmt.Sprintf`) in each of the four `process*Version` methods:
`"<artifactId>-<resolvedVersion>[-<classifier>].<type>"`. -/
def mavenFileName (a : MavenArtifactType) (resolvedVersion : String) : String :=
  if a.classifier.length > 0 then
    a.artifactId ++ "-" ++ resolvedVersion ++ "-" ++ a.classifier ++ "." ++ a.type
  else
    a.artifactId ++ "-" ++ resolvedVersion ++ "." ++ a.type

/-- `MavenResolver.processFixedVersion`: pinned versions resolve to
themselves and the download URL directory is the requested version. -/
def MavenResolver.processFixedVersion (r : MavenResolver) : MavenResolver :=
  let rv := r.artifact.version
  let fn := mavenFileName r.artifact rv
  { r with
    resolvedVersion := rv
    resolvedFilename := fn
    downloadURL :=
      r.repositoryURL ++ "/" ++ r.requestPath ++ "/" ++ rv ++ "/" ++ fn }

/-- `MavenResolver.processSnapshotVersion`.  `fetch` models
`downloadMetadata` (download plus XML parse) as a pure oracle from the
metadata URL to its outcome.  Note the download URL uses
`r.Artifact.Version` (the `-SNAPSHOT` directory), not the resolved
version. -/
def MavenResolver.processSnapshotVersion
    (fetch : String → Except GoErr MavenMetadata) (r : MavenResolver) :
    Except GoErr MavenResolver :=
  let metadataURL :=
    r.repositoryURL ++ "/" ++ r.requestPath ++ "/" ++ r.artifact.version ++ "/" ++
      "maven-metadata.xml"
  match fetch metadataURL with
  | .error e => .error e
  | .ok metadata =>
    let rv :=
      if metadata.versioning.snapshotVersions.length > 0 then
        metadata.SnapshotResolvedVersion r.artifact.type
      else
        r.artifact.version
    let fn := mavenFileName r.artifact rv
    .ok { r with
      resolvedVersion := rv
      resolvedFilename := fn
      downloadURL :=
        r.repositoryURL ++ "/" ++ r.requestPath ++ "/" ++ r.artifact.version ++
          "/" ++ fn }

/-- `MavenResolver.processLatestVersion`.  When the latest version is itself
a `-SNAPSHOT`, the Go code overwrites `r.Artifact.Version` with it and
recurses into `processSnapshotVersion`.  (The `xml.MarshalIndent` of the
metadata into `MetaXML`, which cannot fail on a parsed struct and only feeds
a log line, is omitted.) -/
def MavenResolver.processLatestVersion
    (fetch : String → Except GoErr MavenMetadata) (r : MavenResolver) :
    Except GoErr MavenResolver :=
  let metadataURL :=
    r.repositoryURL ++ "/" ++ r.requestPath ++ "/" ++ "maven-metadata.xml"
  match fetch metadataURL with
  | .error e => .error e
  | .ok metadata =>
    match metadata.LatestVersion with
    | .error e => .error (.plain e)
    | .ok lv =>
      if goEnds lv "-SNAPSHOT" then
        MavenResolver.processSnapshotVersion fetch
          { r with artifact := { r.artifact with version := lv } }
      else
        let fn := mavenFileName r.artifact lv
        .ok { r with
          artifact := { r.artifact with version := lv }
          resolvedVersion := lv
          resolvedFilename := fn
          downloadURL :=
            r.repositoryURL ++ "/" ++ r.requestPath ++ "/" ++ lv ++ "/" ++ fn }

/-- `MavenResolver.processReleaseVersion`. -/
def MavenResolver.processReleaseVersion
    (fetch : String → Except GoErr MavenMetadata) (r : MavenResolver) :
    Except GoErr MavenResolver :=
  let metadataURL :=
    r.repositoryURL ++ "/" ++ r.requestPath ++ "/" ++ "maven-metadata.xml"
  match fetch metadataURL with
  | .error e => .error e
  | .ok metadata =>
    match metadata.ReleaseVersion with
    | .error e => .error (.plain e)
    | .ok rv =>
      let fn := mavenFileName r.artifact rv
      .ok { r with
        artifact := { r.artifact with version := rv }
        resolvedVersion := rv
        resolvedFilename := fn
        downloadURL :=
          r.repositoryURL ++ "/" ++ r.requestPath ++ "/" ++ rv ++ "/" ++ fn }

/-- `MavenResolver.Resolve`: dispatch on the shape of the requested
version. -/
def MavenResolver.Resolve
    (fetch : String → Except GoErr MavenMetadata) (r : MavenResolver) :
    Except GoErr MavenResolver :=
  if goStarts r.artifact.version "[" || goStarts r.artifact.version "(" then
    .error (.plain ("Invalid version " ++ goQuote r.artifact.version ++
      "; ranges are not supported"))
  else if r.artifact.version == "RELEASE" then
    r.processReleaseVersion fetch
  else if r.artifact.version == "LATEST" then
    r.processLatestVersion fetch
  else if goEnds r.artifact.version "-SNAPSHOT" then
    r.processSnapshotVersion fetch
  else
    .ok r.processFixedVersion

/-- A status condition, as in the `(type, status, reason, message)` part of
`metav1.Condition` (`lastTransitionTime`/`observedGeneration` are maintained
by the external condition manager and are not modelled). -/
structure Condition where
  type : String
  status : String
  reason : String
  message : String
deriving DecidableEq, Repr

/-- Modelled from the spec: the condition manager of the external
reconciler-runtime framework.  `MarkTrue`/`MarkFalse` set the condition of
the given type, replacing an existing condition of that type and appending
otherwise (recomputation of the aggregate `Ready` condition is the
framework's concern and is not modelled). -/
def setCondition (conds : List Condition) (c : Condition) : List Condition :=
  if conds.any (fun o => o.type == c.type) then
    conds.map (fun o => if o.type == c.type then c else o)
  else
    conds ++ [c]

/-- `Artifact` from `apis/source/v1alpha1` (status skeleton of §3 of the
spec: revision, path, url, checksum, lastUpdateTime; the generated deepcopy
in `zz_generated.deepcopy.go` confirms `lastUpdateTime` is its only
non-scalar field).  `lastUpdateTime` is modelled as a natural number of
seconds (the controllers store `now().Rfc3339Copy()`, already truncated to
second precision). -/
structure Artifact where
  checksum : String
  revision : String
  path : String
  url : String
  lastUpdateTime : Nat
deriving DecidableEq, Repr

/-- The status fields of a MavenArtifact/ImageRepository record touched by
the reconciler stages: `status.url`, `status.artifact` and the
conditions. -/
structure RecordStatus where
  url : String
  artifact : Option Artifact
  conditions : List Condition
deriving DecidableEq, Repr

/-- The per-record state visible to a sync stage (`parent` in the Go
code). -/
structure ParentRecord where
  status : RecordStatus
deriving DecidableEq, Repr

/-- `parent.ManageConditions().MarkFalse(ty, reason, msg...)`. -/
def markFalse (p : ParentRecord) (ty reason msg : String) : ParentRecord :=
  { p with status := { p.status with
      conditions := setCondition p.status.conditions
        { type := ty, status := "False", reason := reason, message := msg } } }

/-- `parent.ManageConditions().MarkTrue(ty, reason, msg...)`. -/
def markTrue (p : ParentRecord) (ty reason msg : String) : ParentRecord :=
  { p with status := { p.status with
      conditions := setCondition p.status.conditions
        { type := ty, status := "True", reason := reason, message := msg } } }

/-- `MavenArtifactConditionArtifactResolved` from
`mavenartifact_lifecycle.go`. -/
def MavenArtifactConditionArtifactResolved : String := "ArtifactVersionResolved"

/-- `MavenArtifactConditionArtifactAvailable` from
`mavenartifact_lifecycle.go`. -/
def MavenArtifactConditionArtifactAvailable : String := "ArtifactAvailable"

/-- `ArtifactDetails` from the Maven controller: the stash written by the
version-sync stage for the download stage. -/
structure ArtifactDetails where
  resolvedFileName : String
  artifactVersion : String
  artifactDownloadURL : String
deriving DecidableEq, Repr

/-- What a sync stage hands back to the reconcile driver:
* `ok` — `return nil` (conditions carry the outcome);
* `err` — a non-nil error (retryable; the framework re-enqueues with
  back-off), carrying the returned error's text;
* `panicked` — a Go runtime panic (nil-pointer dereference or index out of
  range) raised while executing the stage. -/
inductive StageResult where
  | ok
  | err (msg : String)
  | panicked
deriving DecidableEq, Repr

/-- Result of the version-sync stage: the updated record, the driver
result, and the stashed `ArtifactDetails` (if any). -/
structure VersionSyncEffect where
  parent : ParentRecord
  result : StageResult
  stash : Option ArtifactDetails
deriving DecidableEq, Repr

/-- The body of `MavenArtifactVersionSyncReconciler` from the point where
`MavenResolver.Resolve` is invoked (the earlier steps — stash lookups, URL
parse and scheme validation — only construct `r` or mark
`ConfigurationError` conditions and are not needed by the claims).
`groupId`/`artifactId`/`repoSpecURL` are read off `r` the way the Go code
reads them off the parent spec; error messages reproduce the `fmt`
formats of lines 192-242 of the controller. -/
def mavenVersionSync (fetch : String → Except GoErr MavenMetadata)
    (r : MavenResolver) (groupId artifactId repoSpecURL : String)
    (p : ParentRecord) : VersionSyncEffect :=
  match r.Resolve fetch with
  | .error .deadline =>
    { parent := markFalse p MavenArtifactConditionArtifactResolved "Timeout"
        ("Request timeout error downloading Maven artifact metadata " ++
          goQuote (groupId ++ ":" ++ artifactId) ++ " from repository URL " ++
          goQuote repoSpecURL)
      result := .ok
      stash := none }
  | .error (.dl status msg) =>
    if status == 429 then
      { parent := p, result := .err msg, stash := none }
    else if status ≥ 500 then
      { parent := p, result := .err msg, stash := none }
    else if status == 401 then
      { parent := markFalse p MavenArtifactConditionArtifactResolved "RemoteError"
          ("Unauthorized credentials (HTTP 401) error downloading artifact metadata " ++
            goQuote (groupId ++ ":" ++ artifactId) ++ " from repository URL " ++
            goQuote repoSpecURL ++ ". Check the credentials provided in the Secret.")
        result := .ok
        stash := none }
    else if status == 404 then
      { parent := markFalse p MavenArtifactConditionArtifactResolved "RemoteError"
          ("Maven metadata file not found (HTTP 404) for artifact " ++
            goQuote (groupId ++ ":" ++ artifactId) ++ " from repository URL " ++
            goQuote repoSpecURL ++ ".")
        result := .ok
        stash := none }
    else
      { parent := markFalse p MavenArtifactConditionArtifactResolved "RemoteError"
          ("Error downloading Maven artifact metadata " ++
            goQuote (groupId ++ ":" ++ artifactId) ++ " from repository URL " ++
            goQuote repoSpecURL ++ ": " ++ msg)
        result := .ok
        stash := none }
  | .error (.plain msg) =>
    { parent := markFalse p MavenArtifactConditionArtifactResolved "VersionError" msg
      result := .ok
      stash := none }
  | .ok res =>
    { parent := markTrue p MavenArtifactConditionArtifactResolved "Resolved"
        ("Resolved version " ++ goQuote res.artifact.version ++
          " for artifact " ++ goQuote res.downloadURL)
      result := .ok
      stash := some
        { resolvedFileName := res.resolvedFilename
          artifactVersion := res.artifact.version
          artifactDownloadURL := res.downloadURL } }

/-- `artifactCache` from the Maven controller: the parsed content of the
sidecar checksum file (`"<source>|<checksum>"`). -/
structure ArtifactCacheData where
  source : String
  checksum : String
deriving DecidableEq, Repr

/-- `artifactCache.toString`. -/
def ArtifactCacheData.toString (ac : ArtifactCacheData) : String :=
  ac.source ++ "|" ++ ac.checksum

/-- Outcome of `retrieveChecksumFromFile`: either a value (with `none` for a
missing file) or a runtime panic. -/
inductive CacheReadResult where
  | ok (cache : Option ArtifactCacheData)
  | panicked
deriving DecidableEq, Repr

/-- `retrieveChecksumFromFile` from the Maven controller, applied to the
content of the sidecar file (`none` models `os.ErrNotExist`; read errors
other than not-exist are returned to the driver and not modelled).  The Go
body indexes `strings.Split(string(cache), "|")[1]`, which panics with an
index-out-of-range error whenever the content has no "|" separator. -/
def retrieveChecksumFromFile (content : Option String) : CacheReadResult :=
  match content with
  | none => .ok none
  | some s =>
    match goSplit s "|" with
    | src :: sum :: _ => .ok (some { source := src, checksum := sum })
    | _ => .panicked

/-- `preserveArtifactLastUpdateTime` from
`controllers/imagerepository_controller.go` (also used by the Maven download
stage).  `desired` is always a freshly built non-nil artifact at both call
sites, so it is taken as a plain value; the Go code zeroes `LastUpdateTime`
on deep copies of both arguments and compares the structs. -/
def preserveArtifactLastUpdateTime (current : Option Artifact) (desired : Artifact) :
    Artifact :=
  match current with
  | none => desired
  | some c =>
    if { c with lastUpdateTime := 0 } = { desired with lastUpdateTime := 0 } then
      c
    else
      desired

/-- Abstract file bytes (contents of a downloaded file, an extracted
directory, or a packaged tar.gz). -/
abbrev FileBytes := List Nat

/-- The oracle environment of one execution of the Maven download-sync
stage.  Each field models one external effect of the Go body, in program
order:
* `artifactInfo` — `retrieveArtifactVersion(ctx)` (the stash);
* `clientPresent` — whether `retrieveHttpClient(ctx)` is non-nil;
* `checksumResult` — `downloadChecksum` of `<downloadURL>.sha1`;
* `disk` — filesystem contents by path (for the sidecar read);
* `artifactResponse` — the HTTP GET of the artifact file inside
  `downloadArtifact` (error for transport failures/non-2xx statuses);
* `hash` — `sha1Checksum`;
* `isArchiveFn` — `isArchive` (MIME sniff for `application/zip`);
* `extractFn` — `extractArchive` (`none` models an extraction error);
* `packFn` — `createTarGz` of the artifact directory. -/
structure DownloadEnv where
  artifactInfo : Option ArtifactDetails
  clientPresent : Bool
  checksumResult : Except GoErr String
  disk : String → Option String
  artifactResponse : Except GoErr FileBytes
  hash : FileBytes → String
  isArchiveFn : FileBytes → Bool
  extractFn : FileBytes → Option FileBytes
  packFn : FileBytes → FileBytes

/-- The tampering message of `downloadArtifact` (lines 558-560).  The Go
format string is
`"Checksum (%v) of downloaded Maven artifact file %q does not match expected remote checksum (%v). This file may have been tampered with in transit!"`
and is passed `(fileChecksum, checksum, out.Name())`, so the `%q` verb
receives the REMOTE checksum and the second `%v` receives the file name (an
argument-order slip reproduced faithfully here; the temp-directory prefix of
`out.Name()` is elided). -/
def tamperMessage (fileChecksum remoteChecksum fileName : String) : String :=
  "Checksum (" ++ fileChecksum ++ ") of downloaded Maven artifact file " ++
    goQuote remoteChecksum ++ " does not match expected remote checksum (" ++
    fileName ++ "). This file may have been tampered with in transit!"

/-- `downloadArtifact` from the Maven controller: GET the file, then verify
its SHA-1 against the remote checksum; a mismatch yields a PLAIN error (not
a `*downloadError`) whose message calls out tampering. -/
def downloadArtifact (env : DownloadEnv) (fileName remoteChecksum : String) :
    Except GoErr FileBytes :=
  match env.artifactResponse with
  | .error e => .error e
  | .ok body =>
    let fileChecksum := env.hash body
    if fileChecksum ≠ remoteChecksum then
      .error (.plain (tamperMessage fileChecksum remoteChecksum fileName))
    else
      .ok body

/-- Result of the download-sync stage: the updated record, the driver
result, the path of the artifact file written under the HTTP root (if any),
and the sidecar content written (if any). -/
structure DownloadSyncEffect where
  parent : ParentRecord
  result : StageResult
  wroteArtifactPath : Option String
  wroteSidecar : Option String
deriving DecidableEq, Repr

/-- Error dispatch for the checksum download (lines 277-314 of the Maven
controller): 429 and 5xx return the wrapped error untouched; other statuses
and plain errors mark `ArtifactAvailable=False`.  (The Timeout message ends
in the opaque `err.Error()` text of the deadline error in Go; that suffix is
elided here.) -/
def checksumErrorEffect (p : ParentRecord) (downloadURL : String) (e : GoErr) :
    DownloadSyncEffect :=
  match e with
  | .deadline =>
    { parent := markFalse p MavenArtifactConditionArtifactAvailable "Timeout"
        ("Request timeout error downloading Maven artifact checksum file " ++
          goQuote (downloadURL ++ ".sha1"))
      result := .ok, wroteArtifactPath := none, wroteSidecar := none }
  | .dl status msg =>
    if status == 429 then
      { parent := p, result := .err msg, wroteArtifactPath := none, wroteSidecar := none }
    else if status ≥ 500 then
      { parent := p, result := .err msg, wroteArtifactPath := none, wroteSidecar := none }
    else if status == 401 then
      { parent := markFalse p MavenArtifactConditionArtifactAvailable "RemoteError"
          ("Unauthorized credentials (HTTP 401) error downloading Maven artifact checksum from URL " ++
            goQuote (downloadURL ++ ".sha1") ++ ". Check the credentials provided in the Secret.")
        result := .ok, wroteArtifactPath := none, wroteSidecar := none }
    else if status == 404 then
      { parent := markFalse p MavenArtifactConditionArtifactAvailable "RemoteError"
          ("Maven artifact checksum file not found (HTTP 404) at URL " ++
            goQuote (downloadURL ++ ".sha1") ++ ".")
        result := .ok, wroteArtifactPath := none, wroteSidecar := none }
    else
      { parent := markFalse p MavenArtifactConditionArtifactAvailable "RemoteError"
          ("Error downloading Maven artifact checksum from URL " ++
            goQuote (downloadURL ++ ".sha1") ++ ": " ++ msg)
        result := .ok, wroteArtifactPath := none, wroteSidecar := none }
  | .plain msg =>
    { parent := markFalse p MavenArtifactConditionArtifactAvailable "RemoteError" msg
      result := .ok, wroteArtifactPath := none, wroteSidecar := none }

/-- Error dispatch for the artifact file download (lines 347-383 of the
Maven controller): 429 and 5xx return the wrapped error untouched; other
HTTP statuses mark `ArtifactAvailable=False` with reason `DownloadError`.
(The Timeout message quotes the artifact id and ends in the opaque
`err.Error()` text in Go; both are elided here.)
For an error that is NOT a `*downloadError` (e.g. the checksum-mismatch
error), the final branch of the Go code evaluates `dlerr.err.Error()` where
`dlerr` is the nil result of the failed type assertion
`err.(*downloadError)`, so the stage panics with a nil-pointer
dereference. -/
def artifactErrorEffect (p : ParentRecord) (downloadURL : String) (e : GoErr) :
    DownloadSyncEffect :=
  match e with
  | .deadline =>
    { parent := markFalse p MavenArtifactConditionArtifactAvailable "Timeout"
        ("Request timeout error downloading Maven artifact file")
      result := .ok, wroteArtifactPath := none, wroteSidecar := none }
  | .dl status msg =>
    if status == 429 then
      { parent := p, result := .err msg, wroteArtifactPath := none, wroteSidecar := none }
    else if status ≥ 500 then
      { parent := p, result := .err msg, wroteArtifactPath := none, wroteSidecar := none }
    else if status == 401 then
      { parent := markFalse p MavenArtifactConditionArtifactAvailable "DownloadError"
          ("Unauthorized credentials (HTTP 401) error downloading Maven artifact file from URL " ++
            goQuote downloadURL ++ ". Check the credentials provided in the Secret.")
        result := .ok, wroteArtifactPath := none, wroteSidecar := none }
    else if status == 404 then
      { parent := markFalse p MavenArtifactConditionArtifactAvailable "DownloadError"
          ("Maven artifact file not found (HTTP 404) at URL " ++ goQuote downloadURL ++ ".")
        result := .ok, wroteArtifactPath := none, wroteSidecar := none }
    else
      { parent := markFalse p MavenArtifactConditionArtifactAvailable "DownloadError"
          ("Error downloading Maven artifact file from URL " ++ goQuote downloadURL ++
            ": " ++ msg)
        result := .ok, wroteArtifactPath := none, wroteSidecar := none }
  | .plain _ =>
    { parent := p, result := .panicked, wroteArtifactPath := none, wroteSidecar := none }

/-- The skip-on-unchanged test of the Maven download stage (lines 325-332):
skip when the sidecar parsed, `status.artifact` is set, and the stored pair
equals the current `(downloadURL, remoteChecksum)`. -/
def mavenSkipCondition (cache : Option ArtifactCacheData) (statusArtifact : Option Artifact)
    (remoteChecksum downloadURL : String) : Bool :=
  match cache, statusArtifact with
  | some c, some _ => c.checksum == remoteChecksum && c.source == downloadURL
  | _, _ => false

/-- The body of the `Sync` function of `MavenArtifactDownloadSyncReconciler`
(lines 256-452 of the Maven controller), with all external effects supplied
by `env`.  `root`/`host` are `httpRootDir`/`httpHost`; `ns`/`name` identify
the record; `nowTime` is the (truncated) value of `now().Rfc3339Copy()`.
Unmodelled early returns (temp-dir creation, `os.Mkdir`, `createTarGz`,
`copyCompressedFile` and sidecar-write I/O errors, which return the error to
the driver after the behaviour the claims are about) are noted inline. -/
def mavenDownloadSync (root host ns name : String) (nowTime : Nat)
    (env : DownloadEnv) (p : ParentRecord) : DownloadSyncEffect :=
  match env.artifactInfo with
  | none => { parent := p, result := .ok, wroteArtifactPath := none, wroteSidecar := none }
  | some info =>
  if !env.clientPresent then
    { parent := p, result := .ok, wroteArtifactPath := none, wroteSidecar := none }
  else
  match env.checksumResult with
  | .error e => checksumErrorEffect p info.artifactDownloadURL e
  | .ok remoteChecksum =>
    let cacheFile :=
      root ++ "/" ++ "mavenartifact" ++ "/" ++ ns ++ "/" ++ name ++ "/" ++
        info.resolvedFileName ++ ".sha1"
    match retrieveChecksumFromFile (env.disk cacheFile) with
    | .panicked =>
      { parent := p, result := .panicked, wroteArtifactPath := none, wroteSidecar := none }
    | .ok cache =>
      if mavenSkipCondition cache p.status.artifact remoteChecksum info.artifactDownloadURL then
        { parent := p, result := .ok, wroteArtifactPath := none, wroteSidecar := none }
      else
        match downloadArtifact env info.resolvedFileName remoteChecksum with
        | .error e => artifactErrorEffect p info.artifactDownloadURL e
        | .ok body =>
          let artifactTgzFilename := env.hash body ++ ".tar.gz"
          let dirBytes? := if env.isArchiveFn body then env.extractFn body else some body
          match dirBytes? with
          | none =>
            { parent := markFalse p MavenArtifactConditionArtifactAvailable "FileError"
                ("Failed to extract Maven artifact file " ++ goQuote info.resolvedFileName)
              result := .ok, wroteArtifactPath := none, wroteSidecar := none }
          | some dirBytes =>
            let packed := env.packFn dirBytes
            let checksum := env.hash packed
            let httpPath := "mavenartifact" ++ "/" ++ ns ++ "/" ++ name ++ "/" ++ artifactTgzFilename
            let httpUrl := "http://" ++ host ++ "/" ++ httpPath
            let cacheData : ArtifactCacheData :=
              { source := info.artifactDownloadURL, checksum := remoteChecksum }
            { parent :=
                markTrue
                  { p with status :=
                      { p.status with
                        url := httpUrl
                        artifact := some (preserveArtifactLastUpdateTime p.status.artifact
                          { checksum := checksum
                            revision := info.resolvedFileName
                            path := httpPath
                            url := httpUrl
                            lastUpdateTime := nowTime }) } }
                  MavenArtifactConditionArtifactAvailable "Available" ""
              result := .ok
              wroteArtifactPath := some (root ++ "/" ++ httpPath)
              wroteSidecar := some cacheData.toString }

/-- Outcome of evaluating the skip-on-unchanged condition of
`ImageRepositoryPullImageSyncReconciler` (line 222 of
`imagerepository_controller.go`). -/
inductive ImageSkipOutcome where
  | skipped
  | proceed
  | panicked
deriving DecidableEq, Repr

/-- The artifact path of an image record:
`fmt.Sprintf("imagerepository/%s/%s/%s", ns, name, "<digestHex>.tar.gz")`. -/
def imageHttpPath (ns name digestHex : String) : String :=
  "imagerepository" ++ "/" ++ ns ++ "/" ++ name ++ "/" ++ digestHex ++ ".tar.gz"

/-- The artifact URL of an image record:
`fmt.Sprintf("http://%s/%s", httpHost, httpPath)`. -/
def imageHttpUrl (host httpPath : String) : String :=
  "http://" ++ host ++ "/" ++ httpPath

/-- The skip condition of the image pull stage (line 222):
`err == nil && httpUrl == parent.Status.URL && httpUrl == parent.Status.Artifact.URL`,
with Go's short-circuit `&&`.  `parent.Status.Artifact` is a pointer; when
it is nil, evaluating the third conjunct dereferences nil and panics. -/
def imagePullSkipCheck (fileExists : Bool) (httpUrl : String) (status : RecordStatus) :
    ImageSkipOutcome :=
  if fileExists then
    if httpUrl == status.url then
      match status.artifact with
      | some a => if httpUrl == a.url then .skipped else .proceed
      | none => .panicked
    else
      .proceed
  else
    .proceed

/-- A version is pinned when it is none of the symbolic shapes the resolver
dispatches on: not `RELEASE`, not `LATEST`, not a range, and not a
`-SNAPSHOT`. -/
def versionIsPinned (v : String) : Bool :=
  !(v == "RELEASE") && !(v == "LATEST") && !(goStarts v "[") && !(goStarts v "(") &&
    !(goEnds v "-SNAPSHOT")

/-- The download-URL directory segment asserted by the claim (spec §8):
the requested version when it is pinned or ends in `-SNAPSHOT`, the resolved
version otherwise.  This definition follows the claim's words, for
comparison against the resolver. -/
def claimedDirVersion (requested resolvedVersion : String) : String :=
  if versionIsPinned requested || goEnds requested "-SNAPSHOT" then
    requested
  else
    resolvedVersion

/-- The download-URL directory segment the resolver actually uses (the
amended form of the claim): as claimed, except that a `LATEST` request whose
latest version is itself a `-SNAPSHOT` uses that latest `-SNAPSHOT` version
as the directory. -/
def amendedDirVersion (fetch : String → Except GoErr MavenMetadata)
    (r res : MavenResolver) : String :=
  if r.artifact.version == "RELEASE" then
    res.resolvedVersion
  else if r.artifact.version == "LATEST" then
    match fetch (r.repositoryURL ++ "/" ++ r.requestPath ++ "/" ++ "maven-metadata.xml") with
    | .ok m => if goEnds m.versioning.latest "-SNAPSHOT" then m.versioning.latest
               else res.resolvedVersion
    | .error _ => res.resolvedVersion
  else
    r.artifact.version

deriving instance DecidableEq for Except

/-! ## Concrete instances used by witnesses and counterexamples -/

/-- A metadata oracle for runs that must not fetch metadata. -/
def noFetch : String → Except GoErr MavenMetadata :=
  fun _ => .error (.plain "no metadata request expected")

/-- Spec scenario 1: a pinned artifact
`com.example:my-artifact:1.0.0` of type `jar` against
`https://repo.example/m2`. -/
def pinnedResolver : MavenResolver :=
  { artifact :=
      { groupId := "com.example", version := "1.0.0", artifactId := "my-artifact"
        type := "jar", classifier := "" }
    repositoryURL := "https://repo.example/m2"
    requestPath := "com/example/my-artifact" }

/-- The resolver state produced by resolving `pinnedResolver`. -/
def pinnedResolved : MavenResolver :=
  { artifact :=
      { groupId := "com.example", version := "1.0.0", artifactId := "my-artifact"
        type := "jar", classifier := "" }
    repositoryURL := "https://repo.example/m2"
    requestPath := "com/example/my-artifact"
    resolvedVersion := "1.0.0"
    resolvedFilename := "my-artifact-1.0.0.jar"
    downloadURL := "https://repo.example/m2/com/example/my-artifact/1.0.0/my-artifact-1.0.0.jar" }

/-- A `LATEST` request for `g:a` against `https://r`. -/
def latestSnapResolver : MavenResolver :=
  { artifact :=
      { groupId := "g", version := "LATEST", artifactId := "a", type := "jar", classifier := "" }
    repositoryURL := "https://r"
    requestPath := "g/a" }

/-- Top-level metadata whose latest version is `0.0.5-SNAPSHOT`. -/
def latestSnapTopMeta : MavenMetadata :=
  { groupID := "g", artifactID := "a", version := ""
    versioning :=
      { latest := "0.0.5-SNAPSHOT", release := "", versions := [], lastUpdated := ""
        snapshotVersions := [], snapshot := { timestamp := "", buildNumber := "" } } }

/-- Snapshot metadata of the `0.0.5-SNAPSHOT` directory with a matching
timestamped `jar` entry. -/
def latestSnapDirMeta : MavenMetadata :=
  { groupID := "g", artifactID := "a", version := "0.0.5-SNAPSHOT"
    versioning :=
      { latest := "", release := "", versions := [], lastUpdated := ""
        snapshotVersions :=
          [{ extension := "jar", value := "0.0.5-20220708.171442-1", updated := "" }]
        snapshot := { timestamp := "20220708.171442", buildNumber := "1" } } }

/-- The metadata oracle for the `LATEST`-resolves-to-snapshot run. -/
def latestSnapFetch : String → Except GoErr MavenMetadata := fun url =>
  if url == "https://r/g/a/maven-metadata.xml" then .ok latestSnapTopMeta
  else if url == "https://r/g/a/0.0.5-SNAPSHOT/maven-metadata.xml" then .ok latestSnapDirMeta
  else .error (.plain "unexpected URL")

/-- The resolver state produced by resolving `latestSnapResolver` against
`latestSnapFetch`: the download directory is `0.0.5-SNAPSHOT`, the resolved
version is the timestamped `0.0.5-20220708.171442-1`. -/
def latestSnapResolved : MavenResolver :=
  { artifact :=
      { groupId := "g", version := "0.0.5-SNAPSHOT", artifactId := "a"
        type := "jar", classifier := "" }
    repositoryURL := "https://r"
    requestPath := "g/a"
    resolvedVersion := "0.0.5-20220708.171442-1"
    resolvedFilename := "a-0.0.5-20220708.171442-1.jar"
    downloadURL := "https://r/g/a/0.0.5-SNAPSHOT/a-0.0.5-20220708.171442-1.jar" }

/-- Snapshot metadata where a matching entry (`jar`, timestamped value) is
followed by a later, non-matching entry with a different value: the input
exhibiting the loop-variable aliasing of `SnapshotResolvedVersion`. -/
def aliasBugMeta : MavenMetadata :=
  { groupID := "g", artifactID := "a", version := "2.7.0-SNAPSHOT"
    versioning :=
      { latest := "", release := "", versions := [], lastUpdated := ""
        snapshotVersions :=
          [{ extension := "jar", value := "2.7.0-20220708.171442-1", updated := "" },
           { extension := "pom", value := "2.7.0-20220708.171442-9", updated := "" }]
        snapshot := { timestamp := "20220708.171442", buildNumber := "1" } } }

/-- A `2.7.0-SNAPSHOT` request for `my-artifact` (spec scenario 3). -/
def snapshotResolver : MavenResolver :=
  { artifact :=
      { groupId := "org.my-group", version := "2.7.0-SNAPSHOT", artifactId := "my-artifact"
        type := "jar", classifier := "" }
    repositoryURL := "https://r"
    requestPath := "org/my-group/my-artifact" }

/-- Snapshot metadata of the `2.7.0-SNAPSHOT` directory with a single
matching `jar` entry. -/
def snapshotDirMeta : MavenMetadata :=
  { groupID := "org.my-group", artifactID := "my-artifact", version := "2.7.0-SNAPSHOT"
    versioning :=
      { latest := "", release := "", versions := [], lastUpdated := ""
        snapshotVersions :=
          [{ extension := "jar", value := "2.7.0-20220708.171442-1", updated := "" }]
        snapshot := { timestamp := "20220708.171442", buildNumber := "1" } } }

/-- The metadata oracle for the `2.7.0-SNAPSHOT` run. -/
def snapshotFetch : String → Except GoErr MavenMetadata := fun url =>
  if url == "https://r/org/my-group/my-artifact/2.7.0-SNAPSHOT/maven-metadata.xml" then
    .ok snapshotDirMeta
  else
    .error (.plain "unexpected URL")

/-- The resolver state produced by resolving `snapshotResolver` against
`snapshotFetch`. -/
def snapshotResolved : MavenResolver :=
  { artifact :=
      { groupId := "org.my-group", version := "2.7.0-SNAPSHOT", artifactId := "my-artifact"
        type := "jar", classifier := "" }
    repositoryURL := "https://r"
    requestPath := "org/my-group/my-artifact"
    resolvedVersion := "2.7.0-20220708.171442-1"
    resolvedFilename := "my-artifact-2.7.0-20220708.171442-1.jar"
    downloadURL := "https://r/org/my-group/my-artifact/2.7.0-SNAPSHOT/my-artifact-2.7.0-20220708.171442-1.jar" }

/-- A record with empty status. -/
def emptyParent : ParentRecord :=
  { status := { url := "", artifact := none, conditions := [] } }

/-- The stash produced by the version-sync stage for the snapshot run. -/
def snapshotDetails : ArtifactDetails :=
  { resolvedFileName := "my-artifact-2.7.0-20220708.171442-1.jar"
    artifactVersion := "2.7.0-SNAPSHOT"
    artifactDownloadURL := "https://r/org/my-group/my-artifact/2.7.0-SNAPSHOT/my-artifact-2.7.0-20220708.171442-1.jar" }

/-- The stashed artifact details shared by the download-stage instances. -/
def tamperInfo : ArtifactDetails :=
  { resolvedFileName := "my-artifact-1.0.0.jar"
    artifactVersion := "1.0.0"
    artifactDownloadURL := "https://r/g/a/1.0.0/my-artifact-1.0.0.jar" }

/-- A download environment in which the downloaded file's SHA-1 (`"bbb"`)
differs from the remote checksum (`"aaa"`). -/
def tamperEnv : DownloadEnv :=
  { artifactInfo := some tamperInfo
    clientPresent := true
    checksumResult := .ok "aaa"
    disk := fun _ => none
    artifactResponse := .ok [1]
    hash := fun b => if b == [1] then "bbb" else "zzz"
    isArchiveFn := fun _ => false
    extractFn := fun _ => none
    packFn := fun b => b }

/-- A download environment that answers the checksum fetch with HTTP 503. -/
def checksum503Env : DownloadEnv :=
  { tamperEnv with checksumResult := .error (.dl 503 "boom") }

/-- A download environment in which the checksum fetch succeeds but the
artifact fetch answers HTTP 503. -/
def artifact503Env : DownloadEnv :=
  { tamperEnv with
    checksumResult := .ok "aaa"
    artifactResponse := .error (.dl 503 "boom") }

/-- A resolver whose metadata fetch answers HTTP 503 (version `RELEASE`, so
the metadata fetch is reached). -/
def release503Resolver : MavenResolver :=
  { artifact :=
      { groupId := "g", version := "RELEASE", artifactId := "a", type := "jar", classifier := "" }
    repositoryURL := "https://r"
    requestPath := "g/a" }

/-- The metadata oracle answering HTTP 503 everywhere. -/
def fetch503 : String → Except GoErr MavenMetadata :=
  fun _ => .error (.dl 503 "boom")

/-- A download environment for the skip-on-unchanged witness: the sidecar on
disk holds the current `(downloadURL, remoteSha1)` pair. -/
def skipEnv : DownloadEnv :=
  { tamperEnv with
    checksumResult := .ok "aaa"
    disk := fun p =>
      if p == "root/mavenartifact/ns/n/my-artifact-1.0.0.jar.sha1" then
        some "https://r/g/a/1.0.0/my-artifact-1.0.0.jar|aaa"
      else
        none }

/-- The previously published artifact of the skip witness. -/
def skipArtifact : Artifact :=
  { checksum := "c0", revision := "my-artifact-1.0.0.jar"
    path := "mavenartifact/ns/n/old.tar.gz"
    url := "http://h/mavenartifact/ns/n/old.tar.gz", lastUpdateTime := 5 }

/-- A record whose status already carries an artifact (for the skip
witness). -/
def skipParent : ParentRecord :=
  { status :=
      { url := "http://h/mavenartifact/ns/n/old.tar.gz"
        artifact := some skipArtifact
        conditions := [] } }

/-- A download environment that reaches the packaging step: remote checksum
`"h1"` matches the downloaded file's hash, the file is not an archive, and
packaging prepends a byte (so the tar.gz hashes to `"h2"`). -/
def packageEnv : DownloadEnv :=
  { artifactInfo := some
      { resolvedFileName := "my-artifact-1.0.0.jar"
        artifactVersion := "1.0.0"
        artifactDownloadURL := "https://r/g/a/1.0.0/my-artifact-1.0.0.jar" }
    clientPresent := true
    checksumResult := .ok "h1"
    disk := fun _ => none
    artifactResponse := .ok [1]
    hash := fun b => if b == [1] then "h1" else if b == [0, 1] then "h2" else "h0"
    isArchiveFn := fun _ => false
    extractFn := fun _ => none
    packFn := fun b => 0 :: b }

/-! ## Resolver lemmas -/

/-- On success, `processSnapshotVersion` leaves the repository URL, request
path and artifact spec untouched, and its download URL directory is the
version it was invoked with. -/
theorem processSnapshotVersion_urlShape (fetch : String → Except GoErr MavenMetadata)
    (r res : MavenResolver)
    (h : r.processSnapshotVersion fetch = .ok res) :
    res.repositoryURL = r.repositoryURL ∧ res.requestPath = r.requestPath ∧
    res.artifact = r.artifact ∧
    res.downloadURL =
      r.repositoryURL ++ "/" ++ r.requestPath ++ "/" ++ r.artifact.version ++ "/" ++
        res.resolvedFilename ∧
    res.resolvedFilename = mavenFileName res.artifact res.resolvedVersion := by
  simp only [MavenResolver.processSnapshotVersion] at h
  split at h
  · cases h
  · simp only [Except.ok.injEq] at h
    subst h
    simp

/-- C1 (amended). For every successful resolution, the download URL is
`<repositoryURL>/<requestPath>/<dir>/<resolvedFilename>` where `<dir>` is
given by `amendedDirVersion`: the requested version for pinned and
`-SNAPSHOT` requests, the resolved version for `RELEASE` and for `LATEST`
resolving to a non-snapshot, and the latest `-SNAPSHOT` version itself for
`LATEST` resolving to a snapshot. -/
theorem mavenResolve_downloadURL_shape (fetch : String → Except GoErr MavenMetadata)
    (r res : MavenResolver) (h : r.Resolve fetch = .ok res) :
    res.downloadURL =
      r.repositoryURL ++ "/" ++ r.requestPath ++ "/" ++
        amendedDirVersion fetch r res ++ "/" ++ res.resolvedFilename ∧
    res.resolvedFilename = mavenFileName res.artifact res.resolvedVersion := by
  unfold MavenResolver.Resolve at h
  split_ifs at h with h1 h2 h3 h4
  · -- RELEASE
    simp only [MavenResolver.processReleaseVersion] at h
    split at h
    · cases h
    · rename_i metadata hf
      split at h
      · cases h
      · simp only [Except.ok.injEq] at h
        subst h
        simp [amendedDirVersion, h2, mavenFileName]
  · -- LATEST
    simp only [MavenResolver.processLatestVersion] at h
    split at h
    · cases h
    · rename_i metadata hf
      split at h
      · cases h
      · rename_i lv hlv
        have hlv2 : metadata.versioning.latest = lv := by
          simp only [MavenMetadata.LatestVersion] at hlv
          split_ifs at hlv
          simp_all
        subst hlv2
        split at h
        · rename_i hsnap
          obtain ⟨e1, e2, e3, e4, e5⟩ := processSnapshotVersion_urlShape fetch _ res h
          refine ⟨?_, e5⟩
          rw [e4]
          simp only [amendedDirVersion, h2, h3]
          rw [hf]
          simp [hsnap]
        · rename_i hsnap
          simp only [Except.ok.injEq] at h
          subst h
          simp only [amendedDirVersion, h2, h3]
          rw [hf]
          simp [hsnap, mavenFileName]
  · -- -SNAPSHOT
    obtain ⟨e1, e2, e3, e4, e5⟩ := processSnapshotVersion_urlShape fetch _ res h
    refine ⟨?_, e5⟩
    rw [e4]
    simp [amendedDirVersion, h2, h3]
  · -- pinned
    simp only [Except.ok.injEq] at h
    subst h
    simp [amendedDirVersion, h2, h3, MavenResolver.processFixedVersion, mavenFileName]

/-- Witness for C1 (amended), at the pinned spec scenario
`com.example:my-artifact:1.0.0`. -/
theorem mavenResolve_downloadURL_shape_witness :
    pinnedResolver.Resolve noFetch = .ok pinnedResolved ∧
    (pinnedResolved.downloadURL =
      pinnedResolver.repositoryURL ++ "/" ++ pinnedResolver.requestPath ++ "/" ++
        amendedDirVersion noFetch pinnedResolver pinnedResolved ++ "/" ++
        pinnedResolved.resolvedFilename ∧
     pinnedResolved.resolvedFilename =
       mavenFileName pinnedResolved.artifact pinnedResolved.resolvedVersion) :=
  ⟨by decide, mavenResolve_downloadURL_shape noFetch pinnedResolver pinnedResolved (by decide)⟩

/-- Counterexample to C1 as stated: a `LATEST` request whose latest version
is the snapshot `0.0.5-SNAPSHOT` resolves to the timestamped version
`0.0.5-20220708.171442-1`, but the download URL directory is
`0.0.5-SNAPSHOT` — neither the requested version (`LATEST` is not pinned
and does not end in `-SNAPSHOT`) nor the resolved version, falsifying the
claimed `<dir>`. -/
theorem mavenResolve_claimedDir_counterexample :
    latestSnapResolver.Resolve latestSnapFetch = .ok latestSnapResolved ∧
    latestSnapResolved.downloadURL ≠
      latestSnapResolver.repositoryURL ++ "/" ++ latestSnapResolver.requestPath ++ "/" ++
        claimedDirVersion latestSnapResolver.artifact.version
          latestSnapResolved.resolvedVersion ++ "/" ++
        latestSnapResolved.resolvedFilename := by
  constructor
  · decide
  · decide

/-- C2, evaluated at the failing input: `aliasBugMeta` contains (first) an
entry whose extension is the requested type `jar` and whose value is exactly
`strip-suffix(version,"-SNAPSHOT") + "-" + timestamp + "-" + buildNumber`,
yet `SnapshotResolvedVersion` returns the value of the LAST entry of the
list (`...-9`), because `sv = &v` aliases the shared loop variable. -/
theorem snapshotResolvedVersion_returns_last_entry :
    aliasBugMeta.SnapshotResolvedVersion "jar" = "2.7.0-20220708.171442-9" ∧
    aliasBugMeta.versioning.snapshotVersions.head? =
      some { extension := "jar", value := "2.7.0-20220708.171442-1", updated := "" } ∧
    "2.7.0-20220708.171442-1" =
      goReplaceFirst aliasBugMeta.version "-SNAPSHOT" "" ++ "-" ++
        aliasBugMeta.versioning.snapshot.timestamp ++ "-" ++
        aliasBugMeta.versioning.snapshot.buildNumber ∧
    ("2.7.0-20220708.171442-9" : String) ≠ "2.7.0-20220708.171442-1" :=
  ⟨by decide, by decide, by decide, by decide⟩

set_option maxRecDepth 100000 in
/-- C3, evaluated at the failing input: when the downloaded file hashes to
`"bbb"` but the remote checksum is `"aaa"`, `downloadArtifact` returns a
plain error whose message calls out tampering (the word `tampered` occurs in
it), and the download stage PANICS (nil-pointer dereference on the failed
`*downloadError` type assertion) instead of marking
`ArtifactAvailable=False`: the record is returned unchanged with a
`panicked` outcome and nothing is written. -/
theorem mavenDownloadSync_checksum_mismatch_panics :
    mavenDownloadSync "root" "h" "ns" "n" 0 tamperEnv emptyParent =
      { parent := emptyParent, result := .panicked
        wroteArtifactPath := none, wroteSidecar := none } ∧
    downloadArtifact tamperEnv "my-artifact-1.0.0.jar" "aaa" =
      .error (.plain (tamperMessage "bbb" "aaa" "my-artifact-1.0.0.jar")) ∧
    (goSplit (tamperMessage "bbb" "aaa" "my-artifact-1.0.0.jar") "tampered").length = 2 :=
  ⟨by decide, by decide, by decide⟩

/-- The shared retry dispatch shape of the three HTTP error handlers: a 429
or >=500 status selects the first alternative. -/
theorem retryStatusSelects {α : Type} (s : Nat)
    (hs : s = 429 ∨ (500 ≤ s ∧ s ≤ 599)) (a b : α) :
    (if s == 429 then a else if s ≥ 500 then a else b) = a := by
  rcases hs with h | ⟨h1, _⟩
  · subst h
    simp
  · have h2 : (s == 429) = false := by
      simp only [beq_eq_false_iff_ne, ne_eq]
      omega
    simp [h2, h1]

/-- C4. For HTTP status 429 and any status in the 500 range, each of the
three fetch sites (Maven metadata in the version-sync stage; checksum and
artifact file in the download-sync stage) leaves the record — conditions
included — unchanged and returns the wrapped error to the driver. -/
theorem http429And5xxAreRetryable (s : Nat) (m : String)
    (hs : s = 429 ∨ (500 ≤ s ∧ s ≤ 599)) :
    (∀ fetch r g a u p, r.Resolve fetch = .error (.dl s m) →
       mavenVersionSync fetch r g a u p =
         { parent := p, result := .err m, stash := none }) ∧
    (∀ root host ns name now env p info, env.artifactInfo = some info →
       env.clientPresent = true →
       env.checksumResult = .error (.dl s m) →
       mavenDownloadSync root host ns name now env p =
         { parent := p, result := .err m, wroteArtifactPath := none, wroteSidecar := none }) ∧
    (∀ root host ns name now env p info cache rc, env.artifactInfo = some info →
       env.clientPresent = true →
       env.checksumResult = .ok rc →
       retrieveChecksumFromFile (env.disk
         (root ++ "/" ++ "mavenartifact" ++ "/" ++ ns ++ "/" ++ name ++ "/" ++
           info.resolvedFileName ++ ".sha1")) = .ok cache →
       mavenSkipCondition cache p.status.artifact rc info.artifactDownloadURL = false →
       env.artifactResponse = .error (.dl s m) →
       mavenDownloadSync root host ns name now env p =
         { parent := p, result := .err m, wroteArtifactPath := none, wroteSidecar := none }) := by
  refine ⟨?_, ?_, ?_⟩
  · intro fetch r g a u p hres
    unfold mavenVersionSync
    rw [hres]
    exact retryStatusSelects s hs _ _
  · intro root host ns name now env p info h1 h2 h3
    unfold mavenDownloadSync
    rw [h1, h2, h3]
    simp only [Bool.not_true, Bool.false_eq_true, if_false]
    exact retryStatusSelects s hs _ _
  · intro root host ns name now env p info cache rc h1 h2 h3 h4 h5 h6
    unfold mavenDownloadSync
    rw [h1, h2, h3]
    simp only [Bool.not_true, Bool.false_eq_true, if_false, h4, h5, downloadArtifact, h6]
    exact retryStatusSelects s hs _ _

/-- Witness for C4 at status 503: the metadata, checksum and artifact fetch
sites each return the wrapped error and leave the record unchanged. -/
theorem http429And5xxAreRetryable_witness :
    mavenVersionSync fetch503 release503Resolver "g" "a" "https://r" emptyParent =
      { parent := emptyParent, result := .err "boom", stash := none } ∧
    mavenDownloadSync "root" "h" "ns" "n" 0 checksum503Env emptyParent =
      { parent := emptyParent, result := .err "boom"
        wroteArtifactPath := none, wroteSidecar := none } ∧
    mavenDownloadSync "root" "h" "ns" "n" 0 artifact503Env emptyParent =
      { parent := emptyParent, result := .err "boom"
        wroteArtifactPath := none, wroteSidecar := none } := by
  have h := http429And5xxAreRetryable 503 "boom" (Or.inr ⟨by omega, by omega⟩)
  exact ⟨h.1 fetch503 release503Resolver "g" "a" "https://r" emptyParent (by decide),
    h.2.1 "root" "h" "ns" "n" 0 checksum503Env emptyParent tamperInfo
      (by decide) (by decide) (by decide),
    h.2.2 "root" "h" "ns" "n" 0 artifact503Env emptyParent tamperInfo none "aaa"
      (by decide) (by decide) (by decide) (by decide) (by decide) (by decide)⟩

/-- C5. When the sidecar checksum file exists at the computed path, parses
as `"<sourceURL>|<sha1>"` with exactly the current
`(downloadURL, remoteChecksum)` pair, and `status.artifact` is non-null, the
download stage returns with no error, no download, and the record — status
url, artifact and conditions — unchanged, writing nothing to disk. -/
theorem mavenDownloadSync_skip_on_unchanged
    (root host ns name : String) (now : Nat) (env : DownloadEnv) (p : ParentRecord)
    (info : ArtifactDetails) (rc sidecar : String) (a : Artifact)
    (h1 : env.artifactInfo = some info)
    (h2 : env.clientPresent = true)
    (h3 : env.checksumResult = .ok rc)
    (h4 : env.disk (root ++ "/" ++ "mavenartifact" ++ "/" ++ ns ++ "/" ++ name ++ "/" ++
            info.resolvedFileName ++ ".sha1") = some sidecar)
    (h5 : goSplit sidecar "|" = [info.artifactDownloadURL, rc])
    (h6 : p.status.artifact = some a) :
    mavenDownloadSync root host ns name now env p =
      { parent := p, result := .ok, wroteArtifactPath := none, wroteSidecar := none } := by
  unfold mavenDownloadSync
  rw [h1, h2, h3]
  simp only [Bool.not_true, Bool.false_eq_true, if_false, retrieveChecksumFromFile, h4, h5,
    mavenSkipCondition, h6]
  simp

/-- Witness for C5: a concrete record with a matching sidecar on disk skips
the download and is returned unchanged. -/
theorem mavenDownloadSync_skip_on_unchanged_witness :
    mavenDownloadSync "root" "h" "ns" "n" 9 skipEnv skipParent =
      { parent := skipParent, result := .ok, wroteArtifactPath := none, wroteSidecar := none } :=
  mavenDownloadSync_skip_on_unchanged "root" "h" "ns" "n" 9 skipEnv skipParent tamperInfo
    "aaa" "https://r/g/a/1.0.0/my-artifact-1.0.0.jar|aaa" skipArtifact
    (by decide) (by decide) (by decide) (by decide) (by decide) (by decide)

/-- C6. `preserveArtifactLastUpdateTime` returns the current artifact
verbatim (its `lastUpdateTime` included) exactly when the desired one agrees
with it on checksum, revision, path and url, and the desired artifact
otherwise; in consequence, a reconcile rebuilding an identical artifact
leaves `status.artifact` byte-identical. -/
theorem preserveArtifactLastUpdateTime_char (current : Option Artifact) (desired : Artifact) :
    preserveArtifactLastUpdateTime current desired =
      match current with
      | none => desired
      | some c =>
        if c.checksum = desired.checksum ∧ c.revision = desired.revision ∧
            c.path = desired.path ∧ c.url = desired.url then
          c
        else
          desired := by
  cases current with
  | none => rfl
  | some c =>
    cases c
    cases desired
    simp only [preserveArtifactLastUpdateTime, Artifact.mk.injEq, and_true]

/-- Whenever resolution succeeds with a final `Artifact.Version` that is not
a `-SNAPSHOT`, that version equals the resolved version.  (The two differ
exactly in the snapshot-directory cases, where `Artifact.Version` is the
`-SNAPSHOT` directory version.) -/
theorem mavenResolve_version_eq_resolved_of_nonsnapshot
    (fetch : String → Except GoErr MavenMetadata) (r res : MavenResolver)
    (h : r.Resolve fetch = .ok res)
    (hns : goEnds res.artifact.version "-SNAPSHOT" = false) :
    res.artifact.version = res.resolvedVersion := by
  unfold MavenResolver.Resolve at h
  split_ifs at h with h1 h2 h3 h4
  · -- RELEASE
    simp only [MavenResolver.processReleaseVersion] at h
    split at h
    · cases h
    · split at h
      · cases h
      · simp only [Except.ok.injEq] at h
        subst h
        rfl
  · -- LATEST
    simp only [MavenResolver.processLatestVersion] at h
    split at h
    · cases h
    · split at h
      · cases h
      · rename_i lv hlv
        split at h
        · rename_i hsnap
          obtain ⟨e1, e2, e3, e4, e5⟩ := processSnapshotVersion_urlShape fetch _ res h
          rw [e3] at hns
          simp only at hns
          rw [hsnap] at hns
          cases hns
        · simp only [Except.ok.injEq] at h
          subst h
          rfl
  · -- -SNAPSHOT: contradicts hns
    obtain ⟨e1, e2, e3, e4, e5⟩ := processSnapshotVersion_urlShape fetch _ res h
    rw [e3] at hns
    rw [h4] at hns
    cases hns
  · -- pinned
    simp only [Except.ok.injEq] at h
    subst h
    rfl

/-- C7 (amended). On every successful resolution the version-sync stage
stashes `(mr.Artifact.Version, resolvedFilename, downloadURL)` and marks
`ArtifactVersionResolved=True, reason=Resolved` with message
`Resolved version "<v>" for artifact "<downloadURL>"` where `<v>` is
`mr.Artifact.Version` — which equals the resolved version whenever the final
`Artifact.Version` is not a `-SNAPSHOT` (pinned, `RELEASE`, `LATEST` with a
non-snapshot tip), but is the `-SNAPSHOT` directory version (not the
timestamped resolved version) for snapshot requests. -/
theorem mavenVersionSync_success_effect
    (fetch : String → Except GoErr MavenMetadata) (r res : MavenResolver)
    (g a u : String) (p : ParentRecord)
    (h : r.Resolve fetch = .ok res) :
    mavenVersionSync fetch r g a u p =
      { parent := markTrue p MavenArtifactConditionArtifactResolved "Resolved"
          ("Resolved version " ++ goQuote res.artifact.version ++
            " for artifact " ++ goQuote res.downloadURL)
        result := .ok
        stash := some
          { resolvedFileName := res.resolvedFilename
            artifactVersion := res.artifact.version
            artifactDownloadURL := res.downloadURL } } ∧
    (goEnds res.artifact.version "-SNAPSHOT" = false →
      res.artifact.version = res.resolvedVersion) := by
  constructor
  · unfold mavenVersionSync
    rw [h]
  · exact mavenResolve_version_eq_resolved_of_nonsnapshot fetch r res h

/-- Witness for C7 (amended), at the pinned spec scenario: the stash holds
`1.0.0` (equal to the resolved version) and the message names it. -/
theorem mavenVersionSync_success_effect_witness :
    mavenVersionSync noFetch pinnedResolver "com.example" "my-artifact"
        "https://repo.example/m2" emptyParent =
      { parent := markTrue emptyParent MavenArtifactConditionArtifactResolved "Resolved"
          ("Resolved version " ++ goQuote pinnedResolved.artifact.version ++
            " for artifact " ++ goQuote pinnedResolved.downloadURL)
        result := .ok
        stash := some
          { resolvedFileName := pinnedResolved.resolvedFilename
            artifactVersion := pinnedResolved.artifact.version
            artifactDownloadURL := pinnedResolved.downloadURL } } :=
  (mavenVersionSync_success_effect noFetch pinnedResolver pinnedResolved
    "com.example" "my-artifact" "https://repo.example/m2" emptyParent (by decide)).1

/-- Counterexample to C7 as stated: for the snapshot request
`2.7.0-SNAPSHOT` the resolved (timestamped) version is
`2.7.0-20220708.171442-1`, but the success message names `2.7.0-SNAPSHOT`
and the stashed version field holds `2.7.0-SNAPSHOT`, not the resolved
version. -/
theorem mavenVersionSync_snapshot_counterexample :
    snapshotResolver.Resolve snapshotFetch = .ok snapshotResolved ∧
    mavenVersionSync snapshotFetch snapshotResolver "org.my-group" "my-artifact"
        "https://r" emptyParent =
      { parent :=
          { status :=
              { url := "", artifact := none
                conditions :=
                  [{ type := "ArtifactVersionResolved", status := "True", reason := "Resolved"
                     message := "Resolved version \"2.7.0-SNAPSHOT\" for artifact \"https://r/org/my-group/my-artifact/2.7.0-SNAPSHOT/my-artifact-2.7.0-20220708.171442-1.jar\"" }] } }
        result := .ok
        stash := some snapshotDetails } ∧
    snapshotResolved.resolvedVersion = "2.7.0-20220708.171442-1" ∧
    snapshotDetails.artifactVersion ≠ snapshotResolved.resolvedVersion :=
  ⟨by decide, by decide, by decide, by decide⟩

/-- `preserveArtifactLastUpdateTime` never changes the checksum: when it
keeps the current artifact, the condition guarantees the checksums agree. -/
theorem preserveArtifactLastUpdateTime_checksum (cur : Option Artifact) (d : Artifact) :
    (preserveArtifactLastUpdateTime cur d).checksum = d.checksum := by
  cases cur with
  | none => rfl
  | some c =>
    simp only [preserveArtifactLastUpdateTime]
    split_ifs with h
    · simpa using congrArg Artifact.checksum h
    · rfl

/-- C8 (amended). When the Maven download stage reaches packaging, the
cache entry is written at
`<root>/mavenartifact/<ns>/<name>/<digest>.tar.gz` where `<digest>` is the
SHA-1 of the DOWNLOADED artifact file, while the SHA-1 of the packaged
tar.gz goes into `status.artifact.checksum`. -/
theorem mavenDownloadSync_cache_path
    (root host ns name : String) (now : Nat) (env : DownloadEnv) (p : ParentRecord)
    (info : ArtifactDetails) (rc : String) (cache : Option ArtifactCacheData)
    (body dirBytes : FileBytes)
    (h1 : env.artifactInfo = some info)
    (h2 : env.clientPresent = true)
    (h3 : env.checksumResult = .ok rc)
    (h4 : retrieveChecksumFromFile (env.disk (root ++ "/" ++ "mavenartifact" ++ "/" ++ ns ++
            "/" ++ name ++ "/" ++ info.resolvedFileName ++ ".sha1")) = .ok cache)
    (h5 : mavenSkipCondition cache p.status.artifact rc info.artifactDownloadURL = false)
    (h6 : env.artifactResponse = .ok body)
    (h7 : env.hash body = rc)
    (h8 : (if env.isArchiveFn body then env.extractFn body else some body) = some dirBytes) :
    (mavenDownloadSync root host ns name now env p).wroteArtifactPath =
      some (root ++ "/" ++ ("mavenartifact" ++ "/" ++ ns ++ "/" ++ name ++ "/" ++
        (env.hash body ++ ".tar.gz"))) ∧
    ∀ art, (mavenDownloadSync root host ns name now env p).parent.status.artifact = some art →
      art.checksum = env.hash (env.packFn dirBytes) := by
  have hmain : mavenDownloadSync root host ns name now env p =
      (let artifactTgzFilename := rc ++ ".tar.gz"
       let packed := env.packFn dirBytes
       let checksum := env.hash packed
       let httpPath := "mavenartifact" ++ "/" ++ ns ++ "/" ++ name ++ "/" ++ artifactTgzFilename
       let httpUrl := "http://" ++ host ++ "/" ++ httpPath
       { parent :=
          markTrue
            { p with status :=
                { p.status with
                  url := httpUrl
                  artifact := some (preserveArtifactLastUpdateTime p.status.artifact
                    { checksum := checksum
                      revision := info.resolvedFileName
                      path := httpPath
                      url := httpUrl
                      lastUpdateTime := now }) } }
            MavenArtifactConditionArtifactAvailable "Available" ""
         result := .ok
         wroteArtifactPath := some (root ++ "/" ++ httpPath)
         wroteSidecar := some
           (ArtifactCacheData.toString { source := info.artifactDownloadURL, checksum := rc }) }) := by
    unfold mavenDownloadSync
    rw [h1, h2, h3]
    simp only [Bool.not_true, Bool.false_eq_true, if_false, h4, h5, downloadArtifact, h6, h7]
    simp only [ne_eq, not_true_eq_false, if_neg, ite_false, h8]
    simp [h7]
  constructor
  · rw [hmain, h7]
  · intro art hart
    rw [hmain] at hart
    simp only [markTrue, Option.some.injEq] at hart
    subst hart
    exact preserveArtifactLastUpdateTime_checksum _ _

/-- Witness for C8 (amended): with `packageEnv` the entry is written at
`root/mavenartifact/ns/n/<hash-of-downloaded-file>.tar.gz` and the published
checksum is the hash of the packaged tar.gz. -/
theorem mavenDownloadSync_cache_path_witness :
    (mavenDownloadSync "root" "h" "ns" "n" 7 packageEnv emptyParent).wroteArtifactPath =
      some ("root" ++ "/" ++ ("mavenartifact" ++ "/" ++ "ns" ++ "/" ++ "n" ++ "/" ++
        (packageEnv.hash [1] ++ ".tar.gz"))) ∧
    ∀ art, (mavenDownloadSync "root" "h" "ns" "n" 7 packageEnv emptyParent).parent.status.artifact =
        some art →
      art.checksum = packageEnv.hash (packageEnv.packFn [1]) :=
  mavenDownloadSync_cache_path "root" "h" "ns" "n" 7 packageEnv emptyParent
    tamperInfo "h1" none [1] [1]
    (by decide) (by decide) (by decide) (by decide) (by decide) (by decide) (by decide) (by decide)

/-- Counterexample to C8 as stated: in the `packageEnv` run the packaged
tar.gz hashes to `h2` (which is what `status.artifact.checksum` receives),
but the cache entry is written at `.../h1.tar.gz` — `h1` being the SHA-1 of
the downloaded source file — not at `.../h2.tar.gz`. -/
theorem mavenDownloadSync_digest_counterexample :
    (mavenDownloadSync "root" "h" "ns" "n" 7 packageEnv emptyParent).wroteArtifactPath =
      some "root/mavenartifact/ns/n/h1.tar.gz" ∧
    (mavenDownloadSync "root" "h" "ns" "n" 7 packageEnv emptyParent).parent.status.artifact =
      some { checksum := "h2", revision := "my-artifact-1.0.0.jar"
             path := "mavenartifact/ns/n/h1.tar.gz"
             url := "http://h/mavenartifact/ns/n/h1.tar.gz"
             lastUpdateTime := 7 } ∧
    (mavenDownloadSync "root" "h" "ns" "n" 7 packageEnv emptyParent).wroteArtifactPath ≠
      some ("root" ++ "/" ++ ("mavenartifact" ++ "/" ++ "ns" ++ "/" ++ "n" ++ "/" ++
        (packageEnv.hash (packageEnv.packFn [1]) ++ ".tar.gz"))) :=
  ⟨by decide, by decide, by decide⟩

/-- C9. `retrieveChecksumFromFile` is not total: on an existing sidecar file
whose content (here `"deadbeef"`) contains no `"|"` separator, indexing
`strings.Split(...)[1]` panics with an index-out-of-range error instead of
returning an error or nil. -/
theorem retrieveChecksumFromFile_panics_without_separator :
    (goSplit "deadbeef" "|").length = 1 ∧
    retrieveChecksumFromFile (some "deadbeef") = .panicked :=
  ⟨by decide, by decide⟩

/-- C10. The image skip-on-unchanged check is not total: when the artifact
file exists at the computed path and `status.url` equals the computed URL
but `status.artifact` is nil, the short-circuit evaluation of
`httpUrl == parent.Status.Artifact.URL` dereferences a nil pointer and
panics. -/
theorem imagePullSkipCheck_nil_artifact_panics :
    imagePullSkipCheck true
      (imageHttpUrl "registry.example" (imageHttpPath "ns" "repo" "66aa"))
      { url := imageHttpUrl "registry.example" (imageHttpPath "ns" "repo" "66aa")
        artifact := none, conditions := [] } = .panicked :=
  by decide
